import Mathlib

/-!
Verification of the MCP protocol/dispatch core of `src/server_v2.py`
(repository `wakavoice-info-agent`).

The embedding models the `MCPServer` class: its tool registry (a Python
`dict` built by the `tool` decorator), and the `_handle_mcp_request`
dispatcher serving `POST /mcp`.  JSON values are modelled by the
inductive type `Json`; a Python `dict` is an insertion-ordered
association list (Python 3.7+ semantics).  `request.get_json()` is
modelled by an `Option Json` argument: `none` when the body is absent
or cannot be parsed, `some v` when it parses to the value `v`.  An
exception escaping the handler (a Python `AttributeError` on a
non-`dict`) is modelled by `Except.error`; every normal `return`
is `Except.ok (server, httpStatus, envelope)`.
-/

namespace ServerV2

/-- JSON values as produced by `request.get_json()` and returned by tool
handlers.  Numbers are modelled as integers (no claim involves float
payloads); objects keep key order, mirroring Python dicts. -/
inductive Json where
  | null : Json
  | bool (b : Bool) : Json
  | num (n : Int) : Json
  | str (s : String) : Json
  | arr (xs : List Json) : Json
  | obj (kvs : List (String × Json)) : Json

/-- Python truthiness (`if not data:` in `_handle_mcp_request`):
`None`, `False`, `0`, `""`, `[]` and `{}` are falsy. -/
def jsonTruthy : Json → Bool
  | .null => false
  | .bool b => b
  | .num n => n != 0
  | .str s => s != ""
  | .arr xs => !xs.isEmpty
  | .obj kvs => !kvs.isEmpty

/-- Python type name of a parsed JSON value, as it appears in runtime
error messages. -/
def pyTypeName : Json → String
  | .null => "NoneType"
  | .bool _ => "bool"
  | .num _ => "int"
  | .str _ => "str"
  | .arr _ => "list"
  | .obj _ => "dict"

/-- Lower-case hexadecimal digit. -/
def hexDigitChar (n : Nat) : Char :=
  if n < 10 then Char.ofNat (48 + n) else Char.ofNat (87 + n)

/-- Four-digit lower-case hexadecimal rendering, as in `\uXXXX` escapes. -/
def hex4 (n : Nat) : String :=
  String.mk [hexDigitChar (n / 4096 % 16), hexDigitChar (n / 256 % 16),
             hexDigitChar (n / 16 % 16), hexDigitChar (n % 16)]

/-- Escaping of one character by `json.dumps` with `ensure_ascii=False`:
quote, backslash, the short control escapes, `\uXXXX` for the remaining
control characters, and everything else (including non-ASCII) verbatim. -/
def escapeJsonChar (c : Char) : String :=
  if c = '"' then "\\\""
  else if c = '\\' then "\\\\"
  else if c = '\n' then "\\n"
  else if c = '\r' then "\\r"
  else if c = '\t' then "\\t"
  else if c.toNat = 8 then "\\b"
  else if c.toNat = 12 then "\\f"
  else if c.toNat < 32 then "\\u" ++ hex4 c.toNat
  else String.singleton c

/-- String-body escaping of `json.dumps(…, ensure_ascii=False)`. -/
def escapeJsonString (s : String) : String :=
  String.join (s.toList.map escapeJsonChar)

mutual

/-- Model of `json.dumps(result, ensure_ascii=False, default=str)` as used
at line 143 of `src/server_v2.py`: default separators (`", "` and `": "`).
Handlers return `Json` values, so the `default=str` fallback for
non-serialisable objects is never reached. -/
def dumps : Json → String
  | .null => "null"
  | .bool true => "true"
  | .bool false => "false"
  | .num n => toString n
  | .str s => "\"" ++ escapeJsonString s ++ "\""
  | .arr xs => "[" ++ dumpsList xs ++ "]"
  | .obj kvs => "\x7b" ++ dumpsObj kvs ++ "\x7d"

/-- Comma-separated rendering of array elements for `dumps`. -/
def dumpsList : List Json → String
  | [] => ""
  | [v] => dumps v
  | v :: vs => dumps v ++ ", " ++ dumpsList vs

/-- Comma-separated rendering of object members for `dumps`. -/
def dumpsObj : List (String × Json) → String
  | [] => ""
  | [(k, v)] => "\"" ++ escapeJsonString k ++ "\": " ++ dumps v
  | (k, v) :: kvs =>
      "\"" ++ escapeJsonString k ++ "\": " ++ dumps v ++ ", " ++ dumpsObj kvs

end

mutual

/-- Python `repr` of a parsed JSON value (used via `str` in f-string
interpolation).  Strings are rendered single-quoted; the claims only
exercise this on quote-free strings, where this rendering is exact. -/
def pyRepr : Json → String
  | .null => "None"
  | .bool true => "True"
  | .bool false => "False"
  | .num n => toString n
  | .str s => "\x27" ++ s ++ "\x27"
  | .arr xs => "[" ++ pyReprList xs ++ "]"
  | .obj kvs => "\x7b" ++ pyReprObj kvs ++ "\x7d"

/-- Comma-separated `repr` rendering of list elements. -/
def pyReprList : List Json → String
  | [] => ""
  | [v] => pyRepr v
  | v :: vs => pyRepr v ++ ", " ++ pyReprList vs

/-- Comma-separated `repr` rendering of dict members. -/
def pyReprObj : List (String × Json) → String
  | [] => ""
  | [(k, v)] => "\x27" ++ k ++ "\x27: " ++ pyRepr v
  | (k, v) :: kvs => "\x27" ++ k ++ "\x27: " ++ pyRepr v ++ ", " ++ pyReprObj kvs

end

/-- Python `str()` of a parsed JSON value, as used by the f-strings
`f"Tool not found: {tool_name}"` and `f"Method not found: {method}"`:
identity on strings, `repr` otherwise. -/
def pyStr : Json → String
  | .str s => s
  | v => pyRepr v

/-- First-match lookup in an insertion-ordered association list, i.e.
Python `dict` indexing / `dict.get` on a dict whose keys are unique. -/
def lookupStr {α : Type} : List (String × α) → String → Option α
  | [], _ => none
  | (k, v) :: rest, key => if k == key then some v else lookupStr rest key

/-- Python `dict` assignment `d[key] = v`: if `key` is present its value
is replaced in place (the key keeps its original position), otherwise
the pair is appended at the end (insertion order). -/
def dictSet {α : Type} : List (String × α) → String → α → List (String × α)
  | [], key, v => [(key, v)]
  | (k, w) :: rest, key, v =>
      if k == key then (key, v) :: rest else (k, w) :: dictSet rest key v

/-- One entry of `MCPServer.tools`: the dict built by the `tool`
decorator (lines 45–54 of `src/server_v2.py`), with fields `name`,
`description`, `inputSchema` and `handler`.  The handler is the external
collaborator callable; invoking it with keyword arguments either returns
a JSON-serialisable value (`Except.ok`) or raises (`Except.error` with
the exception's message), covering binding failures of `handler(**arguments)`
such as a Python `TypeError` for a missing positional argument. -/
structure ToolEntry where
  name : String
  description : String
  inputSchema : Json
  handler : List (String × Json) → Except String Json

/-- The `MCPServer` object: constructor fields of `__init__` plus the
`tools` registry dict (keyed by tool name, insertion-ordered).  The
Flask `app` object is transport plumbing and carries no dispatch state. -/
structure MCPServer where
  name : String
  description : String
  version : String
  tools : List (String × ToolEntry)

/-- Model of `MCPServer.__init__`: `tools` starts empty. -/
def MCPServer.new (name description : String) (version : String := "2.0.0") :
    MCPServer :=
  { name := name, description := description, version := version, tools := [] }

/-- The registry entry built by the `tool` decorator (lines 45–54):
`{"name": …, "description": …, "inputSchema": {"type": "object",
"properties": parameters.get("properties", {}), "required":
parameters.get("required", [])}, "handler": func}`. -/
def mkToolEntry (name description : String)
    (parameters : List (String × Json))
    (func : List (String × Json) → Except String Json) : ToolEntry :=
  { name := name
    description := description
    inputSchema := Json.obj
      [("type", .str "object"),
       ("properties", (lookupStr parameters "properties").getD (.obj [])),
       ("required", (lookupStr parameters "required").getD (.arr []))]
    handler := func }

/-- Model of the `MCPServer.tool` decorator (lines 42–59): registering a
tool stores its entry under `self.tools[name]` — a plain dict
assignment, so an existing name is silently overwritten. -/
def MCPServer.tool (s : MCPServer) (name description : String)
    (parameters : List (String × Json))
    (func : List (String × Json) → Except String Json) : MCPServer :=
  { s with tools := dictSet s.tools name (mkToolEntry name description parameters func) }

/-- Python `v.get(key, dflt)` where `v` must be a dict; on any other
type Python raises `AttributeError`, modelled as `Except.error`. -/
def pyGet (v : Json) (key : String) (dflt : Json) : Except String Json :=
  match v with
  | .obj kvs => .ok ((lookupStr kvs key).getD dflt)
  | other =>
      .error ("AttributeError: " ++ pyTypeName other ++
              " object has no attribute get")

/-- Python `==` against a string literal: only a `str` can compare equal. -/
def pyEqStr (v : Json) (s : String) : Bool :=
  match v with
  | .str t => t == s
  | _ => false

/-- Python `tool_name in self.tools` / `self.tools[tool_name]`: dict keys
are tool-name strings, so a non-string never matches. -/
def lookupJsonKey (tools : List (String × ToolEntry)) : Json → Option ToolEntry
  | .str n => lookupStr tools n
  | _ => none

/-- The call `handler(**arguments)`: keyword-splatting a non-mapping
raises `TypeError` (caught by the surrounding `try`), otherwise the
collaborator is invoked on the keyword-argument dict. -/
def callWithKwargs (t : ToolEntry) : Json → Except String Json
  | .obj kvs => t.handler kvs
  | v => .error ("argument after ** must be a mapping, not " ++ pyTypeName v)

/-- A JSON-RPC error envelope `{"jsonrpc": "2.0", "id": …, "error":
{"code": …, "message": …}}` as built inline at lines 97, 131–135,
147–151 and 154–158 of `src/server_v2.py`. -/
def rpcError (requestId : Json) (code : Int) (msg : String) : Json :=
  Json.obj [("jsonrpc", .str "2.0"), ("id", requestId),
    ("error", Json.obj [("code", .num code), ("message", .str msg)])]

/-- A JSON-RPC success envelope `{"jsonrpc": "2.0", "id": …, "result": …}`. -/
def rpcResult (requestId : Json) (result : Json) : Json :=
  Json.obj [("jsonrpc", .str "2.0"), ("id", requestId), ("result", result)]

/-- The `tools/call` success payload (line 143): one text-typed content
entry whose text is the `json.dumps` serialisation of the handler value. -/
def callSuccessResult (v : Json) : Json :=
  Json.obj [("content", Json.arr
    [Json.obj [("type", .str "text"), ("text", .str (dumps v))]])]

/-- The `initialize` result object (lines 107–111). -/
def initResult (s : MCPServer) : Json :=
  Json.obj
    [("protocolVersion", .str "2024-11-05"),
     ("serverInfo", Json.obj [("name", .str s.name), ("version", .str s.version)]),
     ("capabilities", Json.obj [("tools", Json.obj [("listChanged", .bool false)])])]

/-- One entry of the `tools/list` result (lines 115–119). -/
def listEntry (kv : String × ToolEntry) : Json :=
  Json.obj [("name", .str kv.2.name), ("description", .str kv.2.description),
            ("inputSchema", kv.2.inputSchema)]

/-- The `tools/call` branch (lines 126–151), after `params` has been
read: extract `params.get("name")` and `params.get("arguments", {})`
(raising if `params` is not a dict), check registry membership, then
run the handler inside `try`/`except`. -/
def dispatchToolCall (s : MCPServer) (requestId params : Json) :
    Except String (MCPServer × Nat × Json) :=
  match params with
  | .obj pfields =>
    let toolName := (lookupStr pfields "name").getD .null
    let arguments := (lookupStr pfields "arguments").getD (.obj [])
    match lookupJsonKey s.tools toolName with
    | none =>
        .ok (s, 200, rpcError requestId (-32601)
              ("Tool not found: " ++ pyStr toolName))
    | some t =>
        match callWithKwargs t arguments with
        | .ok result => .ok (s, 200, rpcResult requestId (callSuccessResult result))
        | .error msg => .ok (s, 200, rpcError requestId (-32603) msg)
  | other =>
      .error ("AttributeError: " ++ pyTypeName other ++
              " object has no attribute get")

/-- Model of `MCPServer._handle_mcp_request` (lines 94–158).  The body
argument is what `request.get_json()` yielded (`none` for an absent or
unparseable body).  Falsy parsed data takes the `if not data` branch:
HTTP 400 with the `-32700` envelope and `id` null.  Otherwise the three
`data.get` calls run (raising `AttributeError` on a non-dict body) and
dispatch goes by `method`; every other `return` carries HTTP 200 (Flask's
default status for `jsonify`).  The server value is returned unchanged in
every outcome — the method never writes `self`. -/
def MCPServer.handleMcpRequest (s : MCPServer) (body : Option Json) :
    Except String (MCPServer × Nat × Json) :=
  match body with
  | none => .ok (s, 400, rpcError .null (-32700) "Parse error")
  | some data =>
    if jsonTruthy data then
      match data with
      | .obj fields =>
        let requestId := (lookupStr fields "id").getD .null
        let method := (lookupStr fields "method").getD (.str "")
        let params := (lookupStr fields "params").getD (.obj [])
        if pyEqStr method "initialize" then
          .ok (s, 200, rpcResult requestId (initResult s))
        else if pyEqStr method "tools/list" then
          .ok (s, 200, rpcResult requestId
                (Json.obj [("tools", Json.arr (s.tools.map listEntry))]))
        else if pyEqStr method "tools/call" then
          dispatchToolCall s requestId params
        else
          .ok (s, 200, rpcError requestId (-32601)
                ("Method not found: " ++ pyStr method))
      | other =>
          .error ("AttributeError: " ++ pyTypeName other ++
                  " object has no attribute get")
    else
      .ok (s, 400, rpcError .null (-32700) "Parse error")

/-- A JSON-RPC request body `{"jsonrpc": "2.0", "id": …, "method": …,
"params": …}` as used in theorem statements. -/
def mkRequest (requestId : Json) (method : String) (params : Json) : Json :=
  Json.obj [("jsonrpc", .str "2.0"), ("id", requestId),
            ("method", .str method), ("params", params)]

/-- The `params` object of a `tools/call` request. -/
def mkCallParams (name : String) (arguments : Json) : Json :=
  Json.obj [("name", .str name), ("arguments", arguments)]

/-- Concrete parameter schema in the shape passed to the decorator by the
repository (compare `get_weather_forecast`, lines 192–199): one declared
property and one required key. -/
def demoParams : List (String × Json) :=
  [("properties", Json.obj
      [("city", Json.obj [("type", .str "string"),
                          ("description", .str "Nom de la ville")])]),
   ("required", Json.arr [Json.str "city"])]

/-- A collaborator handler that always succeeds (collaborators are
external to the dispatch core; this one stands in for a tool whose
Python signature tolerates every keyword-argument set). -/
def demoHandler : List (String × Json) → Except String Json :=
  fun _ => .ok (.str "handler ran")

/-- A collaborator handler that always raises with message `"boom"`. -/
def failingHandler : List (String × Json) → Except String Json :=
  fun _ => .error "boom"

/-- A server with one registered tool, used to instantiate the theorems
at concrete inputs. -/
def demoServer : MCPServer :=
  (MCPServer.new "info-agent" "Agent de demonstration" "2.0.0").tool
    "demo_tool" "a demo tool" demoParams demoHandler

/-- `demoServer` extended with a tool whose handler always raises. -/
def demoServer2 : MCPServer :=
  demoServer.tool "failing_tool" "always fails" [] failingHandler

/-- A server holding one tool named `"t"` (first registration). -/
def dupServerFirst : MCPServer :=
  (MCPServer.new "info-agent" "Agent de demonstration" "2.0.0").tool
    "t" "first" [] demoHandler

/-- `dupServerFirst` after registering a second tool under the same
name `"t"`. -/
def dupServerSecond : MCPServer :=
  dupServerFirst.tool "t" "second" [] failingHandler

/-- Every outcome of the dispatcher that is a returned response carries
HTTP status 200, except the parse-error branches, which carry 400 with
the fixed `-32700` envelope and null id. -/
theorem handle_ok_status (s : MCPServer) (body : Option Json)
    (r : MCPServer × Nat × Json) (h : s.handleMcpRequest body = .ok r) :
    r.2.1 = 200 ∨ (r.2.1 = 400 ∧ r.2.2 = rpcError .null (-32700) "Parse error") := by
  unfold MCPServer.handleMcpRequest at h
  split at h
  · right; cases h; exact ⟨rfl, rfl⟩
  · split at h
    · split at h
      · dsimp only at h
        split at h
        · left; cases h; rfl
        · split at h
          · left; cases h; rfl
          · split at h
            · unfold dispatchToolCall at h
              split at h
              · dsimp only at h
                split at h
                · left; cases h; rfl
                · split at h
                  · left; cases h; rfl
                  · left; cases h; rfl
              · exact absurd h (by simp)
            · left; cases h; rfl
      · exact absurd h (by simp)
    · right; cases h; exact ⟨rfl, rfl⟩

/-- Dict assignment to a key already present keeps the dict's length. -/
theorem dictSet_length_of_present {α : Type} (d : List (String × α))
    (k : String) (v : α) (h : (lookupStr d k).isSome = true) :
    (dictSet d k v).length = d.length := by
  induction d with
  | nil => simp [lookupStr] at h
  | cons hd tl ih =>
    simp only [dictSet]
    split
    · simp
    · simp only [List.length_cons]
      rw [ih]
      simp only [lookupStr] at h
      split at h
      · simp_all [lookupStr]
      · exact h

/-- Dict assignment makes the key map to the new value. -/
theorem lookupStr_dictSet_self {α : Type} (d : List (String × α))
    (k : String) (v : α) : lookupStr (dictSet d k v) k = some v := by
  induction d with
  | nil => simp [dictSet, lookupStr]
  | cons hd tl ih =>
    simp only [dictSet]
    split
    · simp [lookupStr]
    · simp only [lookupStr]
      split
      · simp_all
      · exact ih

/-- C1: a `tools/call` request for a registered tool whose handler
returns a value yields a result whose `content` is a one-element array,
the entry is text-typed, and its `text` is the `json.dumps`
serialisation of the handler's return value (`callSuccessResult`
unfolds to exactly that object). -/
theorem c1_tools_call_success (s : MCPServer) (requestId : Json) (n : String)
    (kvs : List (String × Json)) (t : ToolEntry) (v : Json)
    (hl : lookupStr s.tools n = some t) (hh : t.handler kvs = .ok v) :
    s.handleMcpRequest (some (mkRequest requestId "tools/call"
        (mkCallParams n (.obj kvs)))) =
      .ok (s, 200, rpcResult requestId (callSuccessResult v)) := by
  show dispatchToolCall s requestId (mkCallParams n (.obj kvs)) = _
  simp only [dispatchToolCall, mkCallParams, lookupStr, lookupJsonKey,
    String.reduceBEq, reduceIte, Option.getD_some]
  rw [hl]
  simp [callWithKwargs, hh]

/-- Witness for C1 at a concrete server, tool and argument set. -/
theorem c1_tools_call_success_witness :
    demoServer.handleMcpRequest (some (mkRequest (.num 1) "tools/call"
        (mkCallParams "demo_tool" (.obj [("city", .str "Ouagadougou")])))) =
      .ok (demoServer, 200,
        rpcResult (.num 1) (callSuccessResult (.str "handler ran"))) :=
  c1_tools_call_success demoServer (.num 1) "demo_tool"
    [("city", .str "Ouagadougou")]
    (mkToolEntry "demo_tool" "a demo tool" demoParams demoHandler)
    (.str "handler ran") rfl rfl

/-- C2: a `tools/call` request whose `params.name` is a string absent
from the registry yields the `-32601` envelope with message
`"Tool not found: {name}"`, whatever `arguments` holds; the response is
built before any handler could run (its shape does not depend on any
handler). -/
theorem c2_tool_not_found (s : MCPServer) (requestId : Json) (n : String)
    (args : Json) (hl : lookupStr s.tools n = none) :
    s.handleMcpRequest (some (mkRequest requestId "tools/call"
        (mkCallParams n args))) =
      .ok (s, 200, rpcError requestId (-32601) ("Tool not found: " ++ n)) := by
  show dispatchToolCall s requestId (mkCallParams n args) = _
  simp only [dispatchToolCall, mkCallParams, lookupStr, lookupJsonKey,
    String.reduceBEq, reduceIte, Option.getD_some]
  rw [hl]
  simp [pyStr]

/-- Witness for C2: calling an unregistered name on the demo server. -/
theorem c2_tool_not_found_witness :
    demoServer.handleMcpRequest (some (mkRequest (.num 3) "tools/call"
        (mkCallParams "unknown_tool" (.obj [])))) =
      .ok (demoServer, 200,
        rpcError (.num 3) (-32601) "Tool not found: unknown_tool") :=
  c2_tool_not_found demoServer (.num 3) "unknown_tool" (.obj []) rfl

/-- C3 fails on the code: `demo_tool` declares `"city"` in
`inputSchema.required`, yet a `tools/call` with empty `arguments`
produces the handler's success result — the handler is invoked and no
`InvalidArgumentsError` (or any error) is produced; the dispatcher
performs no required-key check (lines 137–151 go straight from the
registry lookup to `handler(**arguments)`). -/
theorem c3_missing_required_counterexample :
    (lookupStr demoServer.tools "demo_tool").map (fun t => t.inputSchema) =
      some (Json.obj
        [("type", .str "object"),
         ("properties", Json.obj
            [("city", Json.obj [("type", .str "string"),
                                ("description", .str "Nom de la ville")])]),
         ("required", Json.arr [Json.str "city"])]) ∧
    demoServer.handleMcpRequest (some (mkRequest (.num 2) "tools/call"
        (mkCallParams "demo_tool" (.obj [])))) =
      .ok (demoServer, 200,
        rpcResult (.num 2) (callSuccessResult (.str "handler ran"))) :=
  ⟨rfl, rfl⟩

/-- C3 amended: the dispatcher performs no argument validation at all —
for any registered tool the `arguments` object is handed to the handler
unchanged (required keys missing or not), and the response is exactly
the handler's outcome, wrapped (`-32603` on failure). -/
theorem c3_arguments_passed_through (s : MCPServer) (requestId : Json)
    (n : String) (kvs : List (String × Json)) (t : ToolEntry)
    (hl : lookupStr s.tools n = some t) :
    s.handleMcpRequest (some (mkRequest requestId "tools/call"
        (mkCallParams n (.obj kvs)))) =
      .ok (s, 200, match t.handler kvs with
        | .ok v => rpcResult requestId (callSuccessResult v)
        | .error msg => rpcError requestId (-32603) msg) := by
  show dispatchToolCall s requestId (mkCallParams n (.obj kvs)) = _
  simp only [dispatchToolCall, mkCallParams, lookupStr, lookupJsonKey,
    String.reduceBEq, reduceIte, Option.getD_some]
  rw [hl]
  cases hh : t.handler kvs with
  | ok v => simp [callWithKwargs, hh]
  | error m => simp [callWithKwargs, hh]

/-- Witness for the amended C3: empty arguments reach the handler of
`demo_tool` even though `"city"` is required. -/
theorem c3_arguments_passed_through_witness :
    demoServer.handleMcpRequest (some (mkRequest (.num 7) "tools/call"
        (mkCallParams "demo_tool" (.obj [])))) =
      .ok (demoServer, 200,
        rpcResult (.num 7) (callSuccessResult (.str "handler ran"))) :=
  c3_arguments_passed_through demoServer (.num 7) "demo_tool" []
    (mkToolEntry "demo_tool" "a demo tool" demoParams demoHandler) rfl

/-- C4: an absent (or unparseable) body yields the `-32700`
`"Parse error"` envelope with id null on HTTP 400, and among all
responses the dispatcher returns, this parse-error envelope is the only
one carried on a non-success status — every other branch returns 200. -/
theorem c4_parse_error_only_non_success (s : MCPServer) :
    s.handleMcpRequest none =
      .ok (s, 400, rpcError .null (-32700) "Parse error") ∧
    ∀ body r, s.handleMcpRequest body = .ok r → r.2.1 ≠ 200 →
      r.2.1 = 400 ∧ r.2.2 = rpcError .null (-32700) "Parse error" := by
  refine ⟨rfl, fun body r h hne => ?_⟩
  rcases handle_ok_status s body r h with h200 | h400
  · exact absurd h200 hne
  · exact h400

/-- Witness for C4: the absent-body case on the demo server, fed back
through the second conjunct. -/
theorem c4_parse_error_only_non_success_witness :
    demoServer.handleMcpRequest none =
      .ok (demoServer, 400, rpcError .null (-32700) "Parse error") ∧
    ((400 : Nat) = 400 ∧
      rpcError .null (-32700) "Parse error" =
        rpcError .null (-32700) "Parse error") :=
  ⟨(c4_parse_error_only_non_success demoServer).1,
   (c4_parse_error_only_non_success demoServer).2 none
     (demoServer, 400, rpcError .null (-32700) "Parse error")
     (c4_parse_error_only_non_success demoServer).1 (by decide)⟩

/-- C5: a parsed request whose `method` string is none of the three
handled methods yields the `-32601` envelope with message
`"Method not found: {method}"`, the request id echoed, on HTTP 200. -/
theorem c5_method_not_found (s : MCPServer) (requestId : Json) (m : String)
    (p : Json) (h1 : m ≠ "initialize") (h2 : m ≠ "tools/list")
    (h3 : m ≠ "tools/call") :
    s.handleMcpRequest (some (mkRequest requestId m p)) =
      .ok (s, 200, rpcError requestId (-32601) ("Method not found: " ++ m)) := by
  simp only [MCPServer.handleMcpRequest, mkRequest, jsonTruthy, lookupStr,
    pyEqStr, pyStr]
  simp [h1, h2, h3]

/-- Witness for C5 at the spec's concrete scenario
`{"jsonrpc":"2.0","id":4,"method":"frobnicate"}`. -/
theorem c5_method_not_found_witness :
    demoServer.handleMcpRequest (some (mkRequest (.num 4) "frobnicate" (.obj []))) =
      .ok (demoServer, 200,
        rpcError (.num 4) (-32601) "Method not found: frobnicate") :=
  c5_method_not_found demoServer (.num 4) "frobnicate" (.obj [])
    (by decide) (by decide) (by decide)

/-- C6: every `initialize` request yields exactly the fixed result
object `initResult` (protocol version `"2024-11-05"`, the server's
name/version, `capabilities.tools.listChanged = false`), the server
state comes back unchanged, and a second `initialize` against the state
returned by the first yields the identical response. -/
theorem c6_init_result_stable (s : MCPServer) (requestId : Json) :
    s.handleMcpRequest (some (mkRequest requestId "initialize" (.obj []))) =
      .ok (s, 200, rpcResult requestId (initResult s)) ∧
    ∀ s1 n1 r1,
      s.handleMcpRequest (some (mkRequest requestId "initialize" (.obj []))) =
        .ok (s1, n1, r1) →
      s1.handleMcpRequest (some (mkRequest requestId "initialize" (.obj []))) =
        s.handleMcpRequest (some (mkRequest requestId "initialize" (.obj []))) := by
  refine ⟨rfl, fun s1 n1 r1 h => ?_⟩
  have hs : s1 = s := by
    have h' := h.symm.trans (rfl :
      s.handleMcpRequest (some (mkRequest requestId "initialize" (.obj []))) =
        .ok (s, 200, rpcResult requestId (initResult s)))
    cases h'
    rfl
  rw [hs]

/-- Witness for C6 at a concrete server and id. -/
theorem c6_init_result_stable_witness :
    demoServer.handleMcpRequest (some (mkRequest (.num 10) "initialize" (.obj []))) =
      .ok (demoServer, 200, rpcResult (.num 10) (initResult demoServer)) ∧
    demoServer.handleMcpRequest (some (mkRequest (.num 10) "initialize" (.obj []))) =
      demoServer.handleMcpRequest (some (mkRequest (.num 10) "initialize" (.obj []))) :=
  ⟨(c6_init_result_stable demoServer (.num 10)).1,
   (c6_init_result_stable demoServer (.num 10)).2 demoServer 200
     (rpcResult (.num 10) (initResult demoServer))
     (c6_init_result_stable demoServer (.num 10)).1⟩

/-- C7: `tools/list` returns exactly the registry mapped entrywise to
`{name, description, inputSchema}` objects — one entry per registered
tool, in registration order, with as many entries as registered tools —
the server state comes back unchanged, and repeating the call against
the returned state yields the identical response. -/
theorem c7_tools_list_entries (s : MCPServer) (requestId : Json) :
    s.handleMcpRequest (some (mkRequest requestId "tools/list" (.obj []))) =
      .ok (s, 200, rpcResult requestId
        (Json.obj [("tools", Json.arr (s.tools.map listEntry))])) ∧
    (s.tools.map listEntry).length = s.tools.length ∧
    ∀ s1 n1 r1,
      s.handleMcpRequest (some (mkRequest requestId "tools/list" (.obj []))) =
        .ok (s1, n1, r1) →
      s1.handleMcpRequest (some (mkRequest requestId "tools/list" (.obj []))) =
        s.handleMcpRequest (some (mkRequest requestId "tools/list" (.obj []))) := by
  refine ⟨rfl, List.length_map _ _, fun s1 n1 r1 h => ?_⟩
  have hs : s1 = s := by
    have h' := h.symm.trans (rfl :
      s.handleMcpRequest (some (mkRequest requestId "tools/list" (.obj []))) =
        .ok (s, 200, rpcResult requestId
          (Json.obj [("tools", Json.arr (s.tools.map listEntry))])))
    cases h'
    rfl
  rw [hs]

/-- Witness for C7 at a concrete server and id. -/
theorem c7_tools_list_entries_witness :
    demoServer.handleMcpRequest (some (mkRequest (.num 11) "tools/list" (.obj []))) =
      .ok (demoServer, 200, rpcResult (.num 11)
        (Json.obj [("tools", Json.arr (demoServer.tools.map listEntry))])) ∧
    (demoServer.tools.map listEntry).length = demoServer.tools.length ∧
    demoServer.handleMcpRequest (some (mkRequest (.num 11) "tools/list" (.obj []))) =
      demoServer.handleMcpRequest (some (mkRequest (.num 11) "tools/list" (.obj []))) :=
  ⟨(c7_tools_list_entries demoServer (.num 11)).1,
   (c7_tools_list_entries demoServer (.num 11)).2.1,
   (c7_tools_list_entries demoServer (.num 11)).2.2 demoServer 200
     (rpcResult (.num 11)
       (Json.obj [("tools", Json.arr (demoServer.tools.map listEntry))]))
     (c7_tools_list_entries demoServer (.num 11)).1⟩

/-- C8: when the named tool's handler raises, the response is the
`-32603` envelope carrying the raised message verbatim, on HTTP 200,
with the server state unchanged; the outcome is a returned response
(`Except.ok`), not an escaped exception, so the failure is confined to
this request. -/
theorem c8_handler_error_passthrough (s : MCPServer) (requestId : Json)
    (n : String) (kvs : List (String × Json)) (t : ToolEntry) (msg : String)
    (hl : lookupStr s.tools n = some t) (hh : t.handler kvs = .error msg) :
    s.handleMcpRequest (some (mkRequest requestId "tools/call"
        (mkCallParams n (.obj kvs)))) =
      .ok (s, 200, rpcError requestId (-32603) msg) := by
  show dispatchToolCall s requestId (mkCallParams n (.obj kvs)) = _
  simp only [dispatchToolCall, mkCallParams, lookupStr, lookupJsonKey,
    String.reduceBEq, reduceIte, Option.getD_some]
  rw [hl]
  simp [callWithKwargs, hh]

/-- Witness for C8: the always-raising tool of `demoServer2`. -/
theorem c8_handler_error_passthrough_witness :
    demoServer2.handleMcpRequest (some (mkRequest (.num 5) "tools/call"
        (mkCallParams "failing_tool" (.obj [])))) =
      .ok (demoServer2, 200, rpcError (.num 5) (-32603) "boom") :=
  c8_handler_error_passthrough demoServer2 (.num 5) "failing_tool" []
    (mkToolEntry "failing_tool" "always fails" [] failingHandler) "boom" rfl rfl

/-- C9 fails on the code: registering a second tool under the existing
name `"t"` raises nothing and silently replaces the stored definition —
afterwards the registry still has one entry and it is the second
definition (`description = "second"`, the failing handler), no longer
the first. -/
theorem c9_duplicate_registration_counterexample :
    (lookupStr dupServerFirst.tools "t").map (fun t => t.description) =
      some "first" ∧
    (lookupStr dupServerSecond.tools "t").map (fun t => t.description) =
      some "second" ∧
    dupServerSecond.tools.length = 1 :=
  ⟨rfl, rfl, rfl⟩

/-- C9 amended: registering a definition whose name already exists in
the registry silently replaces the stored definition (the name then maps
to the new entry) and keeps the registry size unchanged — there is no
`DuplicateToolError` and no untouched original. -/
theorem c9_register_duplicate_overwrites (s : MCPServer) (n d : String)
    (p : List (String × Json))
    (f : List (String × Json) → Except String Json)
    (h : (lookupStr s.tools n).isSome = true) :
    lookupStr (s.tool n d p f).tools n = some (mkToolEntry n d p f) ∧
    (s.tool n d p f).tools.length = s.tools.length :=
  ⟨lookupStr_dictSet_self s.tools n (mkToolEntry n d p f),
   dictSet_length_of_present s.tools n (mkToolEntry n d p f) h⟩

/-- Witness for the amended C9: re-registering `"t"` on `dupServerFirst`. -/
theorem c9_register_duplicate_overwrites_witness :
    lookupStr (dupServerFirst.tool "t" "second" [] failingHandler).tools "t" =
      some (mkToolEntry "t" "second" [] failingHandler) ∧
    (dupServerFirst.tool "t" "second" [] failingHandler).tools.length =
      dupServerFirst.tools.length :=
  c9_register_duplicate_overwrites dupServerFirst "t" "second" []
    failingHandler rfl

/-- C10: a body that parses to a falsy JSON value (`{}`, `false`, `0`,
`null`, `[]`, and likewise `""`) takes the `if not data` branch exactly
as an absent body does: HTTP 400, code `-32700`, message
`"Parse error"`, id null. -/
theorem c10_falsy_body_parse_error (s : MCPServer) (v : Json)
    (h : jsonTruthy v = false) :
    s.handleMcpRequest (some v) =
      .ok (s, 400, rpcError .null (-32700) "Parse error") ∧
    s.handleMcpRequest (some v) = s.handleMcpRequest none := by
  constructor <;> simp [MCPServer.handleMcpRequest, h]

/-- Witness for C10 at the empty JSON object `{}`. -/
theorem c10_falsy_body_parse_error_witness :
    demoServer.handleMcpRequest (some (.obj [])) =
      .ok (demoServer, 400, rpcError .null (-32700) "Parse error") ∧
    demoServer.handleMcpRequest (some (.obj [])) =
      demoServer.handleMcpRequest none :=
  c10_falsy_body_parse_error demoServer (.obj []) (by decide)

end ServerV2
